import Mathlib

/-!
Shallow embedding of the Agentic Execution Tracking and Validation subsystem
of the `observatory` repository (crates/core/src/execution.rs and
services/analytics-api/src/middleware/execution.rs), with theorems settling
the specification claims about it.

Modelling conventions:
* `DateTime<Utc>` timestamps are modelled as `Int` (milliseconds since epoch);
  `signed_duration_since(a).num_milliseconds().unsigned_abs()` becomes
  `(b - a).natAbs` at this granularity.
* `HashMap<String, serde_json::Value>` is modelled as an association list
  `List (String × Json)`.
* Fallible Rust functions returning `crate::Result<T>` are modelled with
  `Except Error T`; methods mutating `&mut self` are modelled by explicit
  state passing.
* Calls to `Utc::now()` and `Uuid::new_v4()` are modelled by explicit
  parameters (`now : Int`, generated-id strings) threaded into the functions
  that use them.
-/

namespace Observatory

/-- JSON values, the model of `serde_json::Value` and of the serialized wire
format. Object fields are an ordered association list. -/
inductive Json where
  | null : Json
  | bool (b : Bool) : Json
  | num (n : Int) : Json
  | str (s : String) : Json
  | arr (elems : List Json) : Json
  | obj (fields : List (String × Json)) : Json

/-- Discriminates repo-level vs agent-level spans (`ExecutionSpanKind`). -/
inductive ExecutionSpanKind where
  | Repo : ExecutionSpanKind
  | Agent : ExecutionSpanKind
deriving DecidableEq, Repr

/-- Status of an execution span (`ExecutionSpanStatus`). -/
inductive ExecutionSpanStatus where
  | Running : ExecutionSpanStatus
  | Completed : ExecutionSpanStatus
  | Failed : ExecutionSpanStatus
  | Cancelled : ExecutionSpanStatus
deriving DecidableEq, Repr

/-- `impl Default for ExecutionSpanStatus`. -/
def ExecutionSpanStatus.default : ExecutionSpanStatus := ExecutionSpanStatus.Running

/-- Artifact content: either inline data or a reference URI (`ArtifactContent`). -/
inductive ArtifactContent where
  | Inline (data : String) : ArtifactContent
  | Reference (uri : String) : ArtifactContent

/-- An artifact produced by an agent and attached to its span (`Artifact`). -/
structure Artifact where
  artifact_id : String
  agent_span_id : String
  name : String
  content_type : String
  content_hash : String
  size_bytes : Nat
  content : ArtifactContent
  created_at : Int
  metadata : List (String × Json)

/-- A timestamped event within an execution span (`ExecutionEvent`). -/
structure ExecutionEvent where
  name : String
  timestamp : Int
  attributes : List (String × Json)

/-- A single execution span within the agentic execution context
(`ExecutionSpan`). -/
structure ExecutionSpan where
  span_id : String
  execution_id : String
  parent_span_id : String
  kind : ExecutionSpanKind
  repo_name : String
  agent_name : Option String
  status : ExecutionSpanStatus
  start_time : Int
  end_time : Option Int
  duration_ms : Option Nat
  artifacts : List Artifact
  events : List ExecutionEvent
  attributes : List (String × Json)
  error_message : Option String

/-- Modelled from the spec: `crate::Error` is defined outside the execution
module source; spec §7 describes construction and operational errors as
message-bearing values produced via `Error::invalid_input(message)` and
recovered by the immediate caller. We model the error as the carried
message. -/
structure Error where
  message : String
deriving DecidableEq, Repr

/-- `crate::Error::invalid_input`. -/
def Error.invalid_input (msg : String) : Error := ⟨msg⟩

/-- `ExecutionSpan::complete`: mark the span completed at time `now`,
setting `end_time` and `duration_ms`. -/
def ExecutionSpan.complete (s : ExecutionSpan) (now : Int) : ExecutionSpan :=
  { s with
    end_time := some now
    duration_ms := some (now - s.start_time).natAbs
    status := ExecutionSpanStatus.Completed }

/-- `ExecutionSpan::fail`: mark the span failed at time `now` with an error
message. -/
def ExecutionSpan.fail (s : ExecutionSpan) (error : String) (now : Int) : ExecutionSpan :=
  { s with
    end_time := some now
    duration_ms := some (now - s.start_time).natAbs
    status := ExecutionSpanStatus.Failed
    error_message := some error }

/-- `ExecutionSpan::attach_artifact`: returns the `crate::Result<()>` outcome
together with the (possibly mutated) span. -/
def ExecutionSpan.attach_artifact (s : ExecutionSpan) (artifact : Artifact) :
    Except Error Unit × ExecutionSpan :=
  if s.kind ≠ ExecutionSpanKind.Agent then
    (Except.error (Error.invalid_input "Artifacts can only be attached to agent spans"), s)
  else
    (Except.ok (), { s with artifacts := s.artifacts ++ [artifact] })

/-- `ExecutionSpan::record_event`: append an event with the current
timestamp. -/
def ExecutionSpan.record_event (s : ExecutionSpan) (name : String)
    (attributes : List (String × Json)) (now : Int) : ExecutionSpan :=
  { s with events := s.events ++ [{ name := name, timestamp := now, attributes := attributes }] }

/-- `ExecutionSpan::is_completed`. -/
def ExecutionSpan.is_completed (s : ExecutionSpan) : Bool :=
  s.status = ExecutionSpanStatus.Completed

/-- `ExecutionSpan::is_failed`. -/
def ExecutionSpan.is_failed (s : ExecutionSpan) : Bool :=
  s.status = ExecutionSpanStatus.Failed

/-- Builder for `ExecutionSpan` (`ExecutionSpanBuilder`), with the
`#[derive(Default)]` field defaults. The fluent setters are plain record
updates and are not repeated here. -/
structure ExecutionSpanBuilder where
  span_id : Option String := none
  execution_id : Option String := none
  parent_span_id : Option String := none
  kind : Option ExecutionSpanKind := none
  repo_name : Option String := none
  agent_name : Option String := none
  status : ExecutionSpanStatus := ExecutionSpanStatus.Running
  start_time : Option Int := none
  end_time : Option Int := none
  artifacts : List Artifact := []
  events : List ExecutionEvent := []
  attributes : List (String × Json) := []
  error_message : Option String := none

/-- `ExecutionSpanBuilder::build`. `genSpanId` models the `Uuid::new_v4()`
fallback for an unset `span_id`, `now` the `Utc::now()` fallback for an
unset `start_time`. -/
def ExecutionSpanBuilder.build (b : ExecutionSpanBuilder) (genSpanId : String) (now : Int) :
    Except Error ExecutionSpan :=
  let span_id := b.span_id.getD genSpanId
  match b.execution_id with
  | none => Except.error (Error.invalid_input "execution_id is required")
  | some execution_id =>
    match b.parent_span_id with
    | none => Except.error (Error.invalid_input "parent_span_id is required")
    | some parent_span_id =>
      match b.kind with
      | none => Except.error (Error.invalid_input "kind is required")
      | some kind =>
        match b.repo_name with
        | none => Except.error (Error.invalid_input "repo_name is required")
        | some repo_name =>
          let start_time := b.start_time.getD now
          if kind = ExecutionSpanKind.Agent ∧ b.agent_name = none then
            Except.error (Error.invalid_input "agent_name is required for agent spans")
          else
            let duration_ms := b.end_time.map (fun e => (e - start_time).natAbs)
            Except.ok
              { span_id := span_id
                execution_id := execution_id
                parent_span_id := parent_span_id
                kind := kind
                repo_name := repo_name
                agent_name := b.agent_name
                status := b.status
                start_time := start_time
                end_time := b.end_time
                duration_ms := duration_ms
                artifacts := b.artifacts
                events := b.events
                attributes := b.attributes
                error_message := b.error_message }

/-- Execution context extracted from incoming request headers
(`ExecutionContext`). -/
structure ExecutionContext where
  execution_id : String
  parent_span_id : String
  repo_span_id : Option String
  repo_name : String

/-- The final output of an execution within this repository
(`ExecutionResult`). -/
structure ExecutionResult where
  execution_id : String
  repo_span : ExecutionSpan
  agent_spans : List ExecutionSpan
  valid : Bool
  validation_errors : List String
  total_artifacts : Nat
  total_duration_ms : Option Nat

/-- `ExecutionResult::new`: create a result from a repo span and agent
spans. -/
def ExecutionResult.new (repo_span : ExecutionSpan) (agent_spans : List ExecutionSpan) :
    ExecutionResult :=
  { execution_id := repo_span.execution_id
    total_duration_ms := repo_span.duration_ms
    total_artifacts := (agent_spans.map (fun s => s.artifacts.length)).sum
    repo_span := repo_span
    agent_spans := agent_spans
    valid := false
    validation_errors := [] }

/-- The duplicate-id scan of `ExecutionResult::validate`: iterate over the
agent spans carrying the set of already-seen ids (`HashSet::insert` returns
false when the id was already present, in which case an error is pushed). -/
def scanDuplicates : List ExecutionSpan → List String → List String
  | [], _ => []
  | s :: rest, seen =>
    if s.span_id ∈ seen then
      ("Duplicate agent span_id: " ++ s.span_id) :: scanDuplicates rest seen
    else
      scanDuplicates rest (s.span_id :: seen)

/-- The per-span wrong-parent diagnostic of `ExecutionResult::validate`. -/
def wrongParentError (agent : ExecutionSpan) (repoSpanId : String) : String :=
  "Agent span " ++ agent.span_id ++ " has parent_span_id " ++ agent.parent_span_id
    ++ " but expected repo span " ++ repoSpanId

/-- `ExecutionResult::validate`: clear `validation_errors`, run the four
structural checks accumulating diagnostics, set `valid`, and refresh the
derived totals. -/
def ExecutionResult.validate (r : ExecutionResult) : ExecutionResult :=
  let errs0 : List String := []
  let errs1 :=
    if r.repo_span.parent_span_id = "" then
      errs0 ++ ["Repo span is missing parent_span_id from caller"]
    else errs0
  let errs2 :=
    if r.agent_spans.isEmpty then
      errs1 ++ ["No agent spans emitted -- execution has no evidence of agent work"]
    else errs1
  let errs3 :=
    errs2 ++
      (r.agent_spans.filter
        (fun s => s.parent_span_id ≠ r.repo_span.span_id)).map
        (fun s => wrongParentError s r.repo_span.span_id)
  let errs4 := errs3 ++ scanDuplicates r.agent_spans []
  { r with
    validation_errors := errs4
    valid := errs4.isEmpty
    total_artifacts := (r.agent_spans.map (fun s => s.artifacts.length)).sum
    total_duration_ms := r.repo_span.duration_ms }

/-! ## The Analytics API execution middleware
(services/analytics-api/src/middleware/execution.rs) -/

/-- Configuration for the execution context middleware
(`ExecutionMiddlewareConfig`). -/
structure ExecutionMiddlewareConfig where
  repo_name : String
  enforce : Bool

/-- `ExecutionMiddlewareConfig::new`: enforcing mode. -/
def ExecutionMiddlewareConfig.new (repo_name : String) : ExecutionMiddlewareConfig :=
  { repo_name := repo_name, enforce := true }

/-- `ExecutionMiddlewareConfig::permissive`. -/
def ExecutionMiddlewareConfig.permissive (repo_name : String) : ExecutionMiddlewareConfig :=
  { repo_name := repo_name, enforce := false }

/-- Execution context error response (`ExecutionError`): HTTP status,
stable machine-readable code, human message. -/
structure ExecutionError where
  status : Nat
  code : String
  message : String
deriving DecidableEq, Repr

/-- The rejection built by the middleware when `x-execution-id` is missing
in enforcing mode. -/
def missingExecutionIdError : ExecutionError where
  status := 400
  code := "MISSING_EXECUTION_ID"
  message := "Header x-execution-id is required for all operations"

/-- The rejection built by the middleware when `x-execution-parent-span-id`
is missing in enforcing mode. -/
def missingParentSpanIdError : ExecutionError where
  status := 400
  code := "MISSING_PARENT_SPAN_ID"
  message := "Header x-execution-parent-span-id is required for all operations"

/-- The rejection built when building the repo span fails. -/
def spanCreationFailedError (msg : String) : ExecutionError where
  status := 500
  code := "EXECUTION_SPAN_CREATION_FAILED"
  message := "Failed to create repo span: " ++ msg

/-- The rejection built by the `ExecutionContext` extractor when no context
was injected. -/
def missingExecutionContextError : ExecutionError where
  status := 400
  code := "MISSING_EXECUTION_CONTEXT"
  message := "Execution context not found. Ensure execution middleware is applied and x-execution-id / x-execution-parent-span-id headers are provided."

/-- The typed request-extension store the middleware injects into: axum
`Extensions` restricted to the two types this module inserts
(`ExecutionContext` and `ExecutionSpan`); typed insert replaces any previous
value of the same type. -/
structure Extensions where
  execution_context : Option ExecutionContext
  execution_span : Option ExecutionSpan

/-- An incoming request as the middleware sees it: the three
execution-context headers (already decoded to strings; a missing or
non-decodable header is `none`) plus the extension store. -/
structure MwRequest where
  header_execution_id : Option String
  header_parent_span_id : Option String
  header_repo_name : Option String
  extensions : Extensions

/-- `execution_context_middleware`. `genRepoSpanId` models the
`Uuid::new_v4()` repo-span id, `now` the clock; `next` is the wrapped
handler, producing a response of arbitrary type `R`. Rejections are the
`Except.error` branch (axum renders them as HTTP responses). -/
def execution_context_middleware {R : Type} (config : ExecutionMiddlewareConfig)
    (genRepoSpanId : String) (now : Int) (req : MwRequest) (next : MwRequest → R) :
    Except ExecutionError R :=
  let execution_id := req.header_execution_id
  let parent_span_id := req.header_parent_span_id
  let repo_name_override := req.header_repo_name
  if config.enforce then
    match execution_id with
    | none => Except.error missingExecutionIdError
    | some exec_id =>
      match parent_span_id with
      | none => Except.error missingParentSpanIdError
      | some parent_id =>
        let repo_name := repo_name_override.getD config.repo_name
        let repo_span_id := genRepoSpanId
        match ({ span_id := some repo_span_id
                 execution_id := some exec_id
                 parent_span_id := some parent_id
                 kind := some ExecutionSpanKind.Repo
                 repo_name := some repo_name
                 status := ExecutionSpanStatus.Running } :
                 ExecutionSpanBuilder).build genRepoSpanId now with
        | Except.error e => Except.error (spanCreationFailedError e.message)
        | Except.ok repo_span =>
          let ctx : ExecutionContext :=
            { execution_id := exec_id
              parent_span_id := parent_id
              repo_span_id := some repo_span_id
              repo_name := repo_name }
          Except.ok (next { req with
            extensions := { execution_context := some ctx, execution_span := some repo_span } })
  else
    match execution_id, parent_span_id with
    | some exec_id, some parent_id =>
      let repo_name := repo_name_override.getD config.repo_name
      let repo_span_id := genRepoSpanId
      match ({ span_id := some repo_span_id
               execution_id := some exec_id
               parent_span_id := some parent_id
               kind := some ExecutionSpanKind.Repo
               repo_name := some repo_name } :
               ExecutionSpanBuilder).build genRepoSpanId now with
      | Except.ok repo_span =>
        let ctx : ExecutionContext :=
          { execution_id := exec_id
            parent_span_id := parent_id
            repo_span_id := some repo_span_id
            repo_name := repo_name }
        Except.ok (next { req with
          extensions := { execution_context := some ctx, execution_span := some repo_span } })
      | Except.error _ =>
        Except.ok (next req)
    | _, _ =>
      Except.ok (next req)

/-- Newtype wrapper for extracting `ExecutionContext` from request parts
(`ReqExecutionContext`). -/
structure ReqExecutionContext where
  ctx : ExecutionContext

/-- `ReqExecutionContext::from_request_parts`: look up the injected
`ExecutionContext` in the request extensions; reject with
MISSING_EXECUTION_CONTEXT when absent. -/
def ReqExecutionContext.from_request_parts (ext : Extensions) :
    Except ExecutionError ReqExecutionContext :=
  match ext.execution_context with
  | some ctx => Except.ok { ctx := ctx }
  | none => Except.error missingExecutionContextError

/-! ## Wire format (serde JSON shape)

Faithful model of the `#[derive(Serialize, Deserialize)]` instances with
their field attributes: `skip_serializing_if = "Option::is_none"` fields are
omitted entirely when `None`; `#[serde(default)]` fields fall back to their
default when missing on deserialize; `ExecutionSpanKind` renames to
snake_case, `ExecutionSpanStatus` to UPPERCASE; `ArtifactContent` is
internally tagged by `content_location`, flattened into `Artifact`. -/

/-- First-match lookup among the fields of a JSON object. -/
def lookupField : List (String × Json) → String → Option Json
  | [], _ => none
  | (k, v) :: rest, key => if k = key then some v else lookupField rest key

/-- Field lookup in a JSON object (serde deserializes by field name and
ignores unknown fields). -/
def Json.getField : Json → String → Option Json
  | Json.obj fields, key => lookupField fields key
  | _, _ => none

/-- An optional serialized field: present when the value is `some`, entirely
absent when `none` (the `skip_serializing_if = "Option::is_none"` policy). -/
def optJsonField (name : String) : Option Json → List (String × Json)
  | some v => [(name, v)]
  | none => []

/-- Serialize `ExecutionSpanKind` (snake_case). -/
def encodeKind : ExecutionSpanKind → Json
  | ExecutionSpanKind.Repo => Json.str "repo"
  | ExecutionSpanKind.Agent => Json.str "agent"

/-- Deserialize `ExecutionSpanKind`. -/
def decodeKind : Json → Option ExecutionSpanKind
  | Json.str "repo" => some ExecutionSpanKind.Repo
  | Json.str "agent" => some ExecutionSpanKind.Agent
  | _ => none

/-- Serialize `ExecutionSpanStatus` (UPPERCASE). -/
def encodeStatus : ExecutionSpanStatus → Json
  | ExecutionSpanStatus.Running => Json.str "RUNNING"
  | ExecutionSpanStatus.Completed => Json.str "COMPLETED"
  | ExecutionSpanStatus.Failed => Json.str "FAILED"
  | ExecutionSpanStatus.Cancelled => Json.str "CANCELLED"

/-- Deserialize `ExecutionSpanStatus`. -/
def decodeStatus : Json → Option ExecutionSpanStatus
  | Json.str "RUNNING" => some ExecutionSpanStatus.Running
  | Json.str "COMPLETED" => some ExecutionSpanStatus.Completed
  | Json.str "FAILED" => some ExecutionSpanStatus.Failed
  | Json.str "CANCELLED" => some ExecutionSpanStatus.Cancelled
  | _ => none

/-- The flattened, internally tagged fields of `ArtifactContent`
(`tag = "content_location"`, snake_case variant names). -/
def encodeContentFields : ArtifactContent → List (String × Json)
  | ArtifactContent.Inline data => [("content_location", Json.str "inline"), ("data", Json.str data)]
  | ArtifactContent.Reference uri => [("content_location", Json.str "reference"), ("uri", Json.str uri)]

/-- Deserialize `ArtifactContent` from the flattened fields of the carrier
object. -/
def decodeContent (j : Json) : Option ArtifactContent :=
  match j.getField "content_location" with
  | some (Json.str "inline") =>
    match j.getField "data" with
    | some (Json.str data) => some (ArtifactContent.Inline data)
    | _ => none
  | some (Json.str "reference") =>
    match j.getField "uri" with
    | some (Json.str uri) => some (ArtifactContent.Reference uri)
    | _ => none
  | _ => none

/-- Decode a required string field. -/
def decodeStrField (j : Json) (name : String) : Option String :=
  match j.getField name with
  | some (Json.str s) => some s
  | _ => none

/-- Decode a required integer field. -/
def decodeNumField (j : Json) (name : String) : Option Int :=
  match j.getField name with
  | some (Json.num n) => some n
  | _ => none

/-- Decode a required non-negative integer field (`u64` / `usize`; a
negative number is rejected). -/
def decodeNatField (j : Json) (name : String) : Option Nat :=
  match j.getField name with
  | some (Json.num (Int.ofNat n)) => some n
  | _ => none

/-- Decode an optional string field (absent or JSON null give `none`). -/
def decodeOptStrField (j : Json) (name : String) : Option (Option String) :=
  match j.getField name with
  | none => some none
  | some Json.null => some none
  | some (Json.str s) => some (some s)
  | some _ => none

/-- Decode an optional integer field. -/
def decodeOptNumField (j : Json) (name : String) : Option (Option Int) :=
  match j.getField name with
  | none => some none
  | some Json.null => some none
  | some (Json.num n) => some (some n)
  | some _ => none

/-- Decode an optional non-negative integer field. -/
def decodeOptNatField (j : Json) (name : String) : Option (Option Nat) :=
  match j.getField name with
  | none => some none
  | some Json.null => some none
  | some (Json.num (Int.ofNat n)) => some (some n)
  | some _ => none

/-- Decode a `#[serde(default)]` string-keyed map field: missing means the
empty map. -/
def decodeMapField (j : Json) (name : String) : Option (List (String × Json)) :=
  match j.getField name with
  | none => some []
  | some (Json.obj fields) => some fields
  | some _ => none

/-- Serialize an `Artifact` (metadata has `#[serde(default)]`, which only
affects deserialization; `content` is flattened). -/
def encodeArtifact (a : Artifact) : Json :=
  Json.obj
    ([("artifact_id", Json.str a.artifact_id),
      ("agent_span_id", Json.str a.agent_span_id),
      ("name", Json.str a.name),
      ("content_type", Json.str a.content_type),
      ("content_hash", Json.str a.content_hash),
      ("size_bytes", Json.num a.size_bytes)]
     ++ encodeContentFields a.content
     ++ [("created_at", Json.num a.created_at),
         ("metadata", Json.obj a.metadata)])

/-- Deserialize an `Artifact`. -/
def decodeArtifact (j : Json) : Option Artifact :=
  match decodeStrField j "artifact_id", decodeStrField j "agent_span_id",
        decodeStrField j "name", decodeStrField j "content_type",
        decodeStrField j "content_hash", decodeNatField j "size_bytes",
        decodeContent j, decodeNumField j "created_at", decodeMapField j "metadata" with
  | some artifact_id, some agent_span_id, some name, some content_type,
    some content_hash, some size_bytes, some content, some created_at, some metadata =>
    some
      { artifact_id := artifact_id
        agent_span_id := agent_span_id
        name := name
        content_type := content_type
        content_hash := content_hash
        size_bytes := size_bytes
        content := content
        created_at := created_at
        metadata := metadata }
  | _, _, _, _, _, _, _, _, _ => none

/-- Serialize an `ExecutionEvent` (attributes has `#[serde(default)]`). -/
def encodeEvent (e : ExecutionEvent) : Json :=
  Json.obj
    [("name", Json.str e.name),
     ("timestamp", Json.num e.timestamp),
     ("attributes", Json.obj e.attributes)]

/-- Deserialize an `ExecutionEvent`. -/
def decodeEvent (j : Json) : Option ExecutionEvent :=
  match decodeStrField j "name", decodeNumField j "timestamp",
        decodeMapField j "attributes" with
  | some name, some timestamp, some attributes =>
    some { name := name, timestamp := timestamp, attributes := attributes }
  | _, _, _ => none

/-- Decode a sequence element-wise, failing when any element fails. -/
def decodeElems {α : Type} (dec : Json → Option α) : List Json → Option (List α)
  | [] => some []
  | j :: rest =>
    match dec j, decodeElems dec rest with
    | some x, some xs => some (x :: xs)
    | _, _ => none

/-- Decode a list-valued field through an element decoder, with the
`#[serde(default)]` empty-list fallback when the field is missing. -/
def decodeListField {α : Type} (dec : Json → Option α) (j : Json) (name : String) :
    Option (List α) :=
  match j.getField name with
  | none => some []
  | some (Json.arr elems) => decodeElems dec elems
  | some _ => none

/-- Serialize an `ExecutionSpan`: `agent_name`, `end_time`, `duration_ms`
and `error_message` are omitted when `None`. -/
def encodeSpan (s : ExecutionSpan) : Json :=
  Json.obj
    ([("span_id", Json.str s.span_id),
      ("execution_id", Json.str s.execution_id),
      ("parent_span_id", Json.str s.parent_span_id),
      ("kind", encodeKind s.kind),
      ("repo_name", Json.str s.repo_name)]
     ++ optJsonField "agent_name" (s.agent_name.map Json.str)
     ++ [("status", encodeStatus s.status),
         ("start_time", Json.num s.start_time)]
     ++ optJsonField "end_time" (s.end_time.map Json.num)
     ++ optJsonField "duration_ms" (s.duration_ms.map (fun n => Json.num n))
     ++ [("artifacts", Json.arr (s.artifacts.map encodeArtifact)),
         ("events", Json.arr (s.events.map encodeEvent)),
         ("attributes", Json.obj s.attributes)]
     ++ optJsonField "error_message" (s.error_message.map Json.str))

/-- Deserialize an `ExecutionSpan`. -/
def decodeSpan (j : Json) : Option ExecutionSpan :=
  match decodeStrField j "span_id", decodeStrField j "execution_id",
        decodeStrField j "parent_span_id",
        (j.getField "kind").bind decodeKind,
        decodeStrField j "repo_name", decodeOptStrField j "agent_name",
        (j.getField "status").bind decodeStatus,
        decodeNumField j "start_time", decodeOptNumField j "end_time",
        decodeOptNatField j "duration_ms" with
  | some span_id, some execution_id, some parent_span_id, some kind, some repo_name,
    some agent_name, some status, some start_time, some end_time, some duration_ms =>
    match decodeListField decodeArtifact j "artifacts",
          decodeListField decodeEvent j "events",
          decodeMapField j "attributes", decodeOptStrField j "error_message" with
    | some artifacts, some events, some attributes, some error_message =>
      some
        { span_id := span_id
          execution_id := execution_id
          parent_span_id := parent_span_id
          kind := kind
          repo_name := repo_name
          agent_name := agent_name
          status := status
          start_time := start_time
          end_time := end_time
          duration_ms := duration_ms
          artifacts := artifacts
          events := events
          attributes := attributes
          error_message := error_message }
    | _, _, _, _ => none
  | _, _, _, _, _, _, _, _, _, _ => none

/-- Serialize an `ExecutionResult`: `total_duration_ms` omitted when `None`,
`validation_errors` has `#[serde(default)]`. -/
def encodeResult (r : ExecutionResult) : Json :=
  Json.obj
    ([("execution_id", Json.str r.execution_id),
      ("repo_span", encodeSpan r.repo_span),
      ("agent_spans", Json.arr (r.agent_spans.map encodeSpan)),
      ("valid", Json.bool r.valid),
      ("validation_errors", Json.arr (r.validation_errors.map Json.str)),
      ("total_artifacts", Json.num r.total_artifacts)]
     ++ optJsonField "total_duration_ms" (r.total_duration_ms.map (fun n => Json.num n)))

/-- Decode a JSON string element. -/
def decodeStr : Json → Option String
  | Json.str s => some s
  | _ => none

/-- Deserialize an `ExecutionResult`. -/
def decodeResult (j : Json) : Option ExecutionResult :=
  match decodeStrField j "execution_id",
        (j.getField "repo_span").bind decodeSpan,
        decodeListField decodeSpan j "agent_spans",
        (match j.getField "valid" with
         | some (Json.bool b) => some b
         | _ => none),
        decodeListField decodeStr j "validation_errors",
        decodeNatField j "total_artifacts",
        decodeOptNatField j "total_duration_ms" with
  | some execution_id, some repo_span, some agent_spans, some valid,
    some validation_errors, some total_artifacts, some total_duration_ms =>
    some
      { execution_id := execution_id
        repo_span := repo_span
        agent_spans := agent_spans
        valid := valid
        validation_errors := validation_errors
        total_artifacts := total_artifacts
        total_duration_ms := total_duration_ms }
  | _, _, _, _, _, _, _ => none

/-! ## Concrete fixtures (mirroring the repository's own test values) -/

/-- A repo-level span as produced by the builder in the repository's tests:
execution `exec-1`, parent `caller-span-1`, repo `llm-observatory`. -/
def sampleRepoSpan : ExecutionSpan where
  span_id := "R1"
  execution_id := "exec-1"
  parent_span_id := "caller-span-1"
  kind := ExecutionSpanKind.Repo
  repo_name := "llm-observatory"
  agent_name := none
  status := ExecutionSpanStatus.Running
  start_time := 100
  end_time := none
  duration_ms := none
  artifacts := []
  events := []
  attributes := []
  error_message := none

/-- An agent-level span parented on `sampleRepoSpan`. -/
def sampleAgentSpan : ExecutionSpan where
  span_id := "A1"
  execution_id := "exec-1"
  parent_span_id := "R1"
  kind := ExecutionSpanKind.Agent
  repo_name := "llm-observatory"
  agent_name := some "test-agent"
  status := ExecutionSpanStatus.Running
  start_time := 100
  end_time := none
  duration_ms := none
  artifacts := []
  events := []
  attributes := []
  error_message := none

/-- A concrete artifact (note its `agent_span_id` does not match
`sampleAgentSpan.span_id`, exercising the documented absence of that
check). -/
def sampleArtifact : Artifact where
  artifact_id := "art-1"
  agent_span_id := "some-other-span"
  name := "analysis_report"
  content_type := "text/plain"
  content_hash := "abc123"
  size_bytes := 5
  content := ArtifactContent.Inline "hello"
  created_at := 100
  metadata := []

/-! ## Claim theorems -/

/-- Claim C10: `ExecutionResult::new` always returns `valid = false` with an
empty `validation_errors` list, regardless of the spans' contents, and sets
`execution_id` from the repo span, `total_artifacts` to the sum of the agent
spans' artifact counts, and `total_duration_ms` to the repo span's
duration. -/
theorem executionResult_new_spec (repo_span : ExecutionSpan)
    (agent_spans : List ExecutionSpan) :
    (ExecutionResult.new repo_span agent_spans).valid = false ∧
    (ExecutionResult.new repo_span agent_spans).validation_errors = [] ∧
    (ExecutionResult.new repo_span agent_spans).execution_id = repo_span.execution_id ∧
    (ExecutionResult.new repo_span agent_spans).total_artifacts =
      (agent_spans.map (fun s => s.artifacts.length)).sum ∧
    (ExecutionResult.new repo_span agent_spans).total_duration_ms = repo_span.duration_ms :=
  ⟨rfl, rfl, rfl, rfl, rfl⟩

/-- Claim C4: `attach_artifact` fails with the invalid-operation error and
leaves the span unchanged when the kind is not `Agent`; when the kind is
`Agent` it always succeeds — with no check relating `artifact.agent_span_id`
to the span's own id — and appends the artifact at the end, growing the list
by exactly one. -/
theorem attach_artifact_spec (s : ExecutionSpan) (a : Artifact) :
    (s.kind ≠ ExecutionSpanKind.Agent →
      (s.attach_artifact a).1 =
        Except.error (Error.invalid_input "Artifacts can only be attached to agent spans") ∧
      (s.attach_artifact a).2 = s) ∧
    (s.kind = ExecutionSpanKind.Agent →
      (s.attach_artifact a).1 = Except.ok () ∧
      (s.attach_artifact a).2.artifacts = s.artifacts ++ [a] ∧
      (s.attach_artifact a).2.artifacts.length = s.artifacts.length + 1) := by
  constructor
  · intro h
    simp [ExecutionSpan.attach_artifact, h]
  · intro h
    simp [ExecutionSpan.attach_artifact, h]

/-- Witness for `attach_artifact_spec`: on the concrete `Repo`-kind span the
operation fails and leaves the span unchanged, and on the concrete
`Agent`-kind span it succeeds even though the artifact's `agent_span_id`
names a different span. -/
theorem attach_artifact_spec_witness :
    (sampleRepoSpan.attach_artifact sampleArtifact).2 = sampleRepoSpan ∧
    (sampleAgentSpan.attach_artifact sampleArtifact).1 = Except.ok () ∧
    sampleArtifact.agent_span_id ≠ sampleAgentSpan.span_id :=
  ⟨((attach_artifact_spec sampleRepoSpan sampleArtifact).1 (by decide)).2,
   ((attach_artifact_spec sampleAgentSpan sampleArtifact).2 (by decide)).1,
   by decide⟩

/-- Claim C5 counterexample: terminal states are not frozen. On a span
completed at time 5, a further `fail` call changes the status away from
`Completed` and overwrites the end time. -/
theorem terminal_state_not_frozen_counterexample :
    (sampleRepoSpan.complete 5).status = ExecutionSpanStatus.Completed ∧
    ((sampleRepoSpan.complete 5).fail "boom" 7).status ≠ ExecutionSpanStatus.Completed ∧
    ((sampleRepoSpan.complete 5).fail "boom" 7).end_time ≠ (sampleRepoSpan.complete 5).end_time ∧
    ((sampleRepoSpan.complete 5).fail "boom" 7).duration_ms ≠ (sampleRepoSpan.complete 5).duration_ms := by
  refine ⟨rfl, by decide, by decide, by decide⟩

/-- Claim C5 as amended: `complete()` and `fail()` are not guarded against
terminal states — for every span, including one already `Completed`,
`Failed`, or `Cancelled`, they unconditionally overwrite `status`,
`end_time`, and `duration_ms` with values derived from the new call time
(and `fail` additionally sets `error_message`). -/
theorem complete_fail_overwrite_unconditionally (s : ExecutionSpan) (msg : String) (now : Int) :
    ((s.complete now).status = ExecutionSpanStatus.Completed ∧
     (s.complete now).end_time = some now ∧
     (s.complete now).duration_ms = some (now - s.start_time).natAbs) ∧
    ((s.fail msg now).status = ExecutionSpanStatus.Failed ∧
     (s.fail msg now).end_time = some now ∧
     (s.fail msg now).duration_ms = some (now - s.start_time).natAbs ∧
     (s.fail msg now).error_message = some msg) :=
  ⟨⟨rfl, rfl, rfl⟩, ⟨rfl, rfl, rfl, rfl⟩⟩

/-- A builder supplying `agent_name` together with `kind = Repo`. -/
def repoBuilderWithAgentName : ExecutionSpanBuilder :=
  { execution_id := some "exec-1"
    parent_span_id := some "caller-span-1"
    kind := some ExecutionSpanKind.Repo
    repo_name := some "llm-observatory"
    agent_name := some "helper" }

/-- Claim C6 counterexample: `build()` does not force `agent_name` to `None`
for `Repo` spans — a builder that sets both `kind = Repo` and an agent name
builds successfully into a span with `kind = Repo` and `agent_name = some
"helper"`, violating the claimed "if and only if". -/
theorem build_repo_keeps_agent_name_counterexample :
    (repoBuilderWithAgentName.build "R1" 100).map (fun s => (s.kind, s.agent_name)) =
      Except.ok (ExecutionSpanKind.Repo, some "helper") := rfl

/-- Claim C6 as amended: every span returned successfully by `build()` with
`kind == Agent` has `agent_name` set; in the other direction `build()`
merely copies the builder's `agent_name` into the span unchanged, so a
`Repo`-kind span has `agent_name == None` exactly when the builder did not
supply one — a supplied agent name on a `Repo` builder is kept, not
rejected or cleared. -/
theorem build_agent_name_invariant (b : ExecutionSpanBuilder) (g : String) (now : Int)
    (s : ExecutionSpan) (h : b.build g now = Except.ok s) :
    (s.kind = ExecutionSpanKind.Agent → s.agent_name ≠ none) ∧
    s.agent_name = b.agent_name := by
  cases he : b.execution_id with
  | none => simp [ExecutionSpanBuilder.build, he] at h
  | some execution_id =>
    cases hp : b.parent_span_id with
    | none => simp [ExecutionSpanBuilder.build, he, hp] at h
    | some parent_span_id =>
      cases hk : b.kind with
      | none => simp [ExecutionSpanBuilder.build, he, hp, hk] at h
      | some kind =>
        cases hr : b.repo_name with
        | none => simp [ExecutionSpanBuilder.build, he, hp, hk, hr] at h
        | some repo_name =>
          by_cases hcond : kind = ExecutionSpanKind.Agent ∧ b.agent_name = none
          · simp [ExecutionSpanBuilder.build, he, hp, hk, hr, hcond] at h
          · simp [ExecutionSpanBuilder.build, he, hp, hk, hr, hcond] at h
            rw [← h]
            refine ⟨fun hag => ?_, rfl⟩
            rcases not_and_or.mp hcond with hnk | hna
            · exact absurd hag hnk
            · exact hna

/-- The span `repoBuilderWithAgentName` builds into. -/
def builtRepoSpanWithAgentName : ExecutionSpan where
  span_id := "R1"
  execution_id := "exec-1"
  parent_span_id := "caller-span-1"
  kind := ExecutionSpanKind.Repo
  repo_name := "llm-observatory"
  agent_name := some "helper"
  status := ExecutionSpanStatus.Running
  start_time := 100
  end_time := none
  duration_ms := none
  artifacts := []
  events := []
  attributes := []
  error_message := none

/-- Witness for `build_agent_name_invariant`, applied to the concrete
`Repo` builder that also supplies an agent name. -/
theorem build_agent_name_invariant_witness :
    repoBuilderWithAgentName.build "R1" 100 = Except.ok builtRepoSpanWithAgentName ∧
    builtRepoSpanWithAgentName.agent_name = repoBuilderWithAgentName.agent_name :=
  ⟨rfl, (build_agent_name_invariant repoBuilderWithAgentName "R1" 100
      builtRepoSpanWithAgentName rfl).2⟩

/-- Claim C7: for spans returned by `build()`, `duration_ms` is `Some` if
and only if `end_time` is `Some`, and when set it equals the absolute
millisecond delta between `end_time` and `start_time`; `complete()` (and
`fail()`) set `end_time = Some now` and the matching duration, `complete()`
additionally setting `status = Completed`. -/
theorem duration_end_time_invariant (b : ExecutionSpanBuilder) (g : String) (now t : Int)
    (s sp : ExecutionSpan) (msg : String) :
    (b.build g now = Except.ok s →
       ((s.duration_ms = none ↔ s.end_time = none) ∧
        (∀ e, s.end_time = some e → s.duration_ms = some (e - s.start_time).natAbs))) ∧
    ((sp.complete t).status = ExecutionSpanStatus.Completed ∧
     (sp.complete t).end_time = some t ∧
     (sp.complete t).duration_ms = some (t - sp.start_time).natAbs) ∧
    ((sp.fail msg t).end_time = some t ∧
     (sp.fail msg t).duration_ms = some (t - sp.start_time).natAbs) := by
  refine ⟨?_, ⟨rfl, rfl, rfl⟩, ⟨rfl, rfl⟩⟩
  intro h
  cases he : b.execution_id with
  | none => simp [ExecutionSpanBuilder.build, he] at h
  | some execution_id =>
    cases hp : b.parent_span_id with
    | none => simp [ExecutionSpanBuilder.build, he, hp] at h
    | some parent_span_id =>
      cases hk : b.kind with
      | none => simp [ExecutionSpanBuilder.build, he, hp, hk] at h
      | some kind =>
        cases hr : b.repo_name with
        | none => simp [ExecutionSpanBuilder.build, he, hp, hk, hr] at h
        | some repo_name =>
          by_cases hcond : kind = ExecutionSpanKind.Agent ∧ b.agent_name = none
          · simp [ExecutionSpanBuilder.build, he, hp, hk, hr, hcond] at h
          · simp [ExecutionSpanBuilder.build, he, hp, hk, hr, hcond] at h
            rw [← h]
            constructor
            · cases hbe : b.end_time <;> simp [hbe]
            · intro e hee
              cases hbe : b.end_time with
              | none => simp [hbe] at hee
              | some v =>
                simp [hbe] at hee ⊢
                rw [hee]

/-- The agent builder with explicit start time 100 and end time 250. -/
def agentBuilderWithTimes : ExecutionSpanBuilder :=
  { execution_id := some "exec-1"
    parent_span_id := some "R1"
    kind := some ExecutionSpanKind.Agent
    repo_name := some "llm-observatory"
    agent_name := some "test-agent"
    start_time := some 100
    end_time := some 250 }

/-- The span `agentBuilderWithTimes` builds into. -/
def sampleAgentSpanEnded : ExecutionSpan :=
  { sampleAgentSpan with end_time := some 250, duration_ms := some 150 }

/-- Witness for `duration_end_time_invariant`: applied to the concrete
agent-span builder with explicit start and end times, whose build succeeds
with `duration_ms = some 150`, together with the `complete` part at time
250. -/
theorem duration_end_time_invariant_witness :
    agentBuilderWithTimes.build "A1" 100 = Except.ok sampleAgentSpanEnded ∧
    sampleAgentSpanEnded.duration_ms = some ((250 - sampleAgentSpanEnded.start_time)).natAbs ∧
    (sampleRepoSpan.complete 250).status = ExecutionSpanStatus.Completed := by
  have hb : agentBuilderWithTimes.build "A1" 100 = Except.ok sampleAgentSpanEnded := rfl
  refine ⟨hb, ?_, ?_⟩
  · exact ((duration_end_time_invariant agentBuilderWithTimes "A1" 100 250
      sampleAgentSpanEnded sampleRepoSpan "m").1 hb).2 250 rfl
  · exact (duration_end_time_invariant agentBuilderWithTimes "A1" 100 250
      sampleAgentSpanEnded sampleRepoSpan "m").2.1.1

/-- Claim C3: `build()` fails with an error naming exactly the first
missing required field, checked in the order `execution_id`,
`parent_span_id`, `kind`, `repo_name`, then — only when `kind == Agent` —
`agent_name`; the `Except` result carries at most one error, and when no
required field is missing the build succeeds. -/
theorem build_fail_fast (b : ExecutionSpanBuilder) (g : String) (now : Int) :
    (b.execution_id = none →
       b.build g now = Except.error (Error.invalid_input "execution_id is required")) ∧
    (b.execution_id ≠ none → b.parent_span_id = none →
       b.build g now = Except.error (Error.invalid_input "parent_span_id is required")) ∧
    (b.execution_id ≠ none → b.parent_span_id ≠ none → b.kind = none →
       b.build g now = Except.error (Error.invalid_input "kind is required")) ∧
    (b.execution_id ≠ none → b.parent_span_id ≠ none → b.kind ≠ none →
       b.repo_name = none →
       b.build g now = Except.error (Error.invalid_input "repo_name is required")) ∧
    (b.execution_id ≠ none → b.parent_span_id ≠ none →
       b.kind = some ExecutionSpanKind.Agent → b.repo_name ≠ none →
       b.agent_name = none →
       b.build g now = Except.error (Error.invalid_input "agent_name is required for agent spans")) ∧
    (b.execution_id ≠ none → b.parent_span_id ≠ none → b.kind ≠ none →
       b.repo_name ≠ none → (b.kind = some ExecutionSpanKind.Agent → b.agent_name ≠ none) →
       ∃ s, b.build g now = Except.ok s) := by
  refine ⟨?_, ?_, ?_, ?_, ?_, ?_⟩
  · intro h1
    simp [ExecutionSpanBuilder.build, h1]
  · intro h1 h2
    rcases Option.ne_none_iff_exists.mp h1 with ⟨eid, he⟩
    simp [ExecutionSpanBuilder.build, ← he, h2]
  · intro h1 h2 h3
    rcases Option.ne_none_iff_exists.mp h1 with ⟨eid, he⟩
    rcases Option.ne_none_iff_exists.mp h2 with ⟨pid, hp⟩
    simp [ExecutionSpanBuilder.build, ← he, ← hp, h3]
  · intro h1 h2 h3 h4
    rcases Option.ne_none_iff_exists.mp h1 with ⟨eid, he⟩
    rcases Option.ne_none_iff_exists.mp h2 with ⟨pid, hp⟩
    rcases Option.ne_none_iff_exists.mp h3 with ⟨kind, hk⟩
    simp [ExecutionSpanBuilder.build, ← he, ← hp, ← hk, h4]
  · intro h1 h2 h3 h4 h5
    rcases Option.ne_none_iff_exists.mp h1 with ⟨eid, he⟩
    rcases Option.ne_none_iff_exists.mp h2 with ⟨pid, hp⟩
    rcases Option.ne_none_iff_exists.mp h4 with ⟨rn, hr⟩
    simp [ExecutionSpanBuilder.build, ← he, ← hp, h3, ← hr, h5]
  · intro h1 h2 h3 h4 h5
    rcases Option.ne_none_iff_exists.mp h1 with ⟨eid, he⟩
    rcases Option.ne_none_iff_exists.mp h2 with ⟨pid, hp⟩
    rcases Option.ne_none_iff_exists.mp h3 with ⟨kind, hk⟩
    rcases Option.ne_none_iff_exists.mp h4 with ⟨rn, hr⟩
    have hcond : ¬(kind = ExecutionSpanKind.Agent ∧ b.agent_name = none) := by
      rintro ⟨hka, hna⟩
      exact h5 (by rw [← hk, hka]) hna
    simp [ExecutionSpanBuilder.build, ← he, ← hp, ← hk, ← hr, hcond]

/-- Witness for `build_fail_fast`: the empty builder fails naming
`execution_id`; a builder missing only `agent_name` with `kind = Agent`
fails naming `agent_name`; the fully populated agent builder succeeds. -/
theorem build_fail_fast_witness :
    ({} : ExecutionSpanBuilder).build "g" 0 =
      Except.error (Error.invalid_input "execution_id is required") ∧
    ({ agentBuilderWithTimes with agent_name := none } : ExecutionSpanBuilder).build "g" 0 =
      Except.error (Error.invalid_input "agent_name is required for agent spans") ∧
    ∃ s, agentBuilderWithTimes.build "A1" 100 = Except.ok s :=
  ⟨(build_fail_fast {} "g" 0).1 rfl,
   (build_fail_fast { agentBuilderWithTimes with agent_name := none } "g" 0).2.2.2.2.1
     (by decide) (by decide) (by decide) (by decide) rfl,
   (build_fail_fast agentBuilderWithTimes "A1" 100).2.2.2.2.2
     (by decide) (by decide) (by decide) (by decide) (fun _ => by decide)⟩

/-- Claim C2: in enforcing mode, a request missing the `x-execution-id`
header (respectively `x-execution-parent-span-id`) is rejected with a
status-400 response carrying the stable code `MISSING_EXECUTION_ID`
(respectively `MISSING_PARENT_SPAN_ID`) — for every wrapped handler `next`,
so the handler is never invoked; a request carrying both headers reaches
the handler with an injected `ExecutionContext` whose `execution_id` and
`parent_span_id` equal the header values and whose `repo_span_id` is `Some`,
together with a `Repo`-kind `ExecutionSpan` with status `Running` and no
end time. -/
theorem middleware_enforcing_spec {R : Type} (config : ExecutionMiddlewareConfig)
    (g : String) (now : Int) (req : MwRequest) (next : MwRequest → R)
    (hc : config.enforce = true) :
    (missingExecutionIdError.status = 400 ∧
     missingExecutionIdError.code = "MISSING_EXECUTION_ID" ∧
     missingParentSpanIdError.status = 400 ∧
     missingParentSpanIdError.code = "MISSING_PARENT_SPAN_ID") ∧
    (req.header_execution_id = none →
       execution_context_middleware config g now req next =
         Except.error missingExecutionIdError) ∧
    (∀ eid, req.header_execution_id = some eid → req.header_parent_span_id = none →
       execution_context_middleware config g now req next =
         Except.error missingParentSpanIdError) ∧
    (∀ eid pid, req.header_execution_id = some eid → req.header_parent_span_id = some pid →
       ∃ ctx repo_span,
         execution_context_middleware config g now req next =
           Except.ok (next { req with extensions :=
             { execution_context := some ctx, execution_span := some repo_span } }) ∧
         ctx.execution_id = eid ∧ ctx.parent_span_id = pid ∧ ctx.repo_span_id = some g ∧
         repo_span.kind = ExecutionSpanKind.Repo ∧
         repo_span.status = ExecutionSpanStatus.Running ∧
         repo_span.end_time = none ∧
         repo_span.span_id = g ∧
         repo_span.execution_id = eid ∧ repo_span.parent_span_id = pid) := by
  refine ⟨⟨rfl, rfl, rfl, rfl⟩, ?_, ?_, ?_⟩
  · intro h1
    simp [execution_context_middleware, hc, h1]
  · intro eid h1 h2
    simp [execution_context_middleware, hc, h1, h2]
  · intro eid pid h1 h2
    refine ⟨{ execution_id := eid, parent_span_id := pid, repo_span_id := some g,
              repo_name := req.header_repo_name.getD config.repo_name },
            { span_id := g, execution_id := eid, parent_span_id := pid,
              kind := ExecutionSpanKind.Repo,
              repo_name := req.header_repo_name.getD config.repo_name,
              agent_name := none, status := ExecutionSpanStatus.Running,
              start_time := now, end_time := none, duration_ms := none,
              artifacts := [], events := [], attributes := [], error_message := none },
            ?_, rfl, rfl, rfl, rfl, rfl, rfl, rfl, rfl, rfl⟩
    simp [execution_context_middleware, hc, h1, h2, ExecutionSpanBuilder.build]

/-- Claim C8: in permissive mode, a request carrying both headers gets the
same injection as enforcing mode; a request missing either header is never
rejected — it reaches the inner handler with the request unchanged (no
`ExecutionContext` injected) — and any handler extracting the execution
context from a request without one fails with the status-400
`MISSING_EXECUTION_CONTEXT` error. -/
theorem middleware_permissive_spec {R : Type} (config : ExecutionMiddlewareConfig)
    (g : String) (now : Int) (req : MwRequest) (next : MwRequest → R)
    (hc : config.enforce = false) :
    (∀ eid pid, req.header_execution_id = some eid → req.header_parent_span_id = some pid →
       ∃ ctx repo_span,
         execution_context_middleware config g now req next =
           Except.ok (next { req with extensions :=
             { execution_context := some ctx, execution_span := some repo_span } }) ∧
         ctx.execution_id = eid ∧ ctx.parent_span_id = pid ∧ ctx.repo_span_id = some g ∧
         repo_span.kind = ExecutionSpanKind.Repo ∧
         repo_span.status = ExecutionSpanStatus.Running ∧
         repo_span.end_time = none) ∧
    ((req.header_execution_id = none ∨ req.header_parent_span_id = none) →
       execution_context_middleware config g now req next = Except.ok (next req)) ∧
    (missingExecutionContextError.status = 400 ∧
     missingExecutionContextError.code = "MISSING_EXECUTION_CONTEXT") ∧
    (∀ ext : Extensions, ext.execution_context = none →
       ReqExecutionContext.from_request_parts ext =
         Except.error missingExecutionContextError) := by
  refine ⟨?_, ?_, ⟨rfl, rfl⟩, ?_⟩
  · intro eid pid h1 h2
    refine ⟨{ execution_id := eid, parent_span_id := pid, repo_span_id := some g,
              repo_name := req.header_repo_name.getD config.repo_name },
            { span_id := g, execution_id := eid, parent_span_id := pid,
              kind := ExecutionSpanKind.Repo,
              repo_name := req.header_repo_name.getD config.repo_name,
              agent_name := none, status := ExecutionSpanStatus.Running,
              start_time := now, end_time := none, duration_ms := none,
              artifacts := [], events := [], attributes := [], error_message := none },
            ?_, rfl, rfl, rfl, rfl, rfl, rfl⟩
    simp [execution_context_middleware, hc, h1, h2, ExecutionSpanBuilder.build]
  · rintro (h1 | h2)
    · cases h2 : req.header_parent_span_id <;>
        simp [execution_context_middleware, hc, h1, h2]
    · cases h1 : req.header_execution_id <;>
        simp [execution_context_middleware, hc, h1, h2]
  · intro ext hext
    simp [ReqExecutionContext.from_request_parts, hext]

/-- A sample request carrying both execution headers. -/
def reqBothHeaders : MwRequest where
  header_execution_id := some "exec-1"
  header_parent_span_id := some "caller-1"
  header_repo_name := none
  extensions := { execution_context := none, execution_span := none }

/-- A sample request missing the parent-span header. -/
def reqOnlyExecutionId : MwRequest where
  header_execution_id := some "exec-1"
  header_parent_span_id := none
  header_repo_name := none
  extensions := { execution_context := none, execution_span := none }

/-- Witness for `middleware_enforcing_spec`: with the enforcing config for
repo `llm-observatory`, the request with only `x-execution-id` is rejected
with `MISSING_PARENT_SPAN_ID`, and the request with both headers is handed
to the handler with a context whose `repo_span_id` is `some "uuid-1"`. -/
theorem middleware_enforcing_spec_witness :
    (execution_context_middleware (ExecutionMiddlewareConfig.new "llm-observatory") "uuid-1" 100
        reqOnlyExecutionId (fun r => r) = Except.error missingParentSpanIdError) ∧
    (∃ ctx repo_span,
       execution_context_middleware (ExecutionMiddlewareConfig.new "llm-observatory") "uuid-1" 100
           reqBothHeaders (fun r => r) =
         Except.ok { reqBothHeaders with extensions :=
           { execution_context := some ctx, execution_span := some repo_span } } ∧
       ctx.execution_id = "exec-1" ∧ ctx.parent_span_id = "caller-1" ∧
       ctx.repo_span_id = some "uuid-1" ∧ repo_span.kind = ExecutionSpanKind.Repo ∧
       repo_span.status = ExecutionSpanStatus.Running ∧ repo_span.end_time = none) := by
  constructor
  · exact (middleware_enforcing_spec (ExecutionMiddlewareConfig.new "llm-observatory")
      "uuid-1" 100 reqOnlyExecutionId (fun r => r) rfl).2.2.1 "exec-1" rfl rfl
  · rcases (middleware_enforcing_spec (ExecutionMiddlewareConfig.new "llm-observatory")
        "uuid-1" 100 reqBothHeaders (fun r => r) rfl).2.2.2 "exec-1" "caller-1" rfl rfl with
      ⟨ctx, repo_span, heq, hc1, hc2, hc3, hs1, hs2, hs3, _, _, _⟩
    exact ⟨ctx, repo_span, heq, hc1, hc2, hc3, hs1, hs2, hs3⟩

/-- A sample request with no execution headers at all. -/
def reqNoHeaders : MwRequest where
  header_execution_id := none
  header_parent_span_id := none
  header_repo_name := none
  extensions := { execution_context := none, execution_span := none }

/-- Witness for `middleware_permissive_spec`: with the permissive config,
the header-less request passes through unchanged, and extracting the
execution context from its (empty) extensions fails with
`MISSING_EXECUTION_CONTEXT`. -/
theorem middleware_permissive_spec_witness :
    (execution_context_middleware (ExecutionMiddlewareConfig.permissive "llm-observatory")
        "uuid-1" 100 reqNoHeaders (fun r => r) = Except.ok reqNoHeaders) ∧
    (ReqExecutionContext.from_request_parts reqNoHeaders.extensions =
      Except.error missingExecutionContextError) :=
  ⟨(middleware_permissive_spec (ExecutionMiddlewareConfig.permissive "llm-observatory")
      "uuid-1" 100 reqNoHeaders (fun r => r) rfl).2.1 (Or.inl rfl),
   (middleware_permissive_spec (ExecutionMiddlewareConfig.permissive "llm-observatory")
      "uuid-1" 100 reqNoHeaders (fun r => r) rfl).2.2.2 reqNoHeaders.extensions rfl⟩

/-- The duplicate-id scan yields no diagnostic exactly when the span ids are
pairwise distinct and disjoint from the already-seen set. -/
theorem scanDuplicates_eq_nil (l : List ExecutionSpan) (seen : List String) :
    scanDuplicates l seen = [] ↔
      ((l.map ExecutionSpan.span_id).Nodup ∧ ∀ s ∈ l, s.span_id ∉ seen) := by
  induction l generalizing seen with
  | nil => simp [scanDuplicates]
  | cons a rest ih =>
    by_cases hmem : a.span_id ∈ seen
    · simp only [scanDuplicates, if_pos hmem]
      constructor
      · intro h
        exact absurd h (List.cons_ne_nil _ _)
      · rintro ⟨-, hall⟩
        exact absurd hmem (hall a (List.mem_cons_self a rest))
    · simp only [scanDuplicates, if_neg hmem, ih, List.map_cons, List.nodup_cons]
      constructor
      · rintro ⟨hnd, hall⟩
        refine ⟨⟨?_, hnd⟩, ?_⟩
        · intro hin
          rcases List.mem_map.mp hin with ⟨s, hs, hseq⟩
          exact (hall s hs) (List.mem_cons.mpr (Or.inl hseq))
        · intro s hs
          rcases List.mem_cons.mp hs with rfl | hs2
          · exact hmem
          · intro hseen
            exact (hall s hs2) (List.mem_cons.mpr (Or.inr hseen))
      · rintro ⟨⟨hnotin, hnd⟩, hall⟩
        refine ⟨hnd, fun s hs => ?_⟩
        intro hin
        rcases List.mem_cons.mp hin with heq | hseen
        · exact hnotin (List.mem_map.mpr ⟨s, hs, heq⟩)
        · exact (hall s (List.mem_cons_of_mem a hs)) hseen

/-- The duplicate-id scan yields one diagnostic per occurrence of an id
beyond its first occurrence (relative to the initial seen set). -/
theorem scanDuplicates_length (l : List ExecutionSpan) (seen : List String) :
    (scanDuplicates l seen).length =
      l.length - ((l.map ExecutionSpan.span_id).toFinset \ seen.toFinset).card := by
  induction l generalizing seen with
  | nil => simp [scanDuplicates]
  | cons a rest ih =>
    have hle : ∀ S : Finset String,
        ((rest.map ExecutionSpan.span_id).toFinset \ S).card ≤ rest.length := by
      intro S
      calc ((rest.map ExecutionSpan.span_id).toFinset \ S).card
          ≤ (rest.map ExecutionSpan.span_id).toFinset.card :=
            Finset.card_le_card Finset.sdiff_subset
        _ ≤ (rest.map ExecutionSpan.span_id).length := List.toFinset_card_le _
        _ = rest.length := List.length_map _ _
    by_cases hmem : a.span_id ∈ seen
    · have hfin : a.span_id ∈ seen.toFinset := List.mem_toFinset.mpr hmem
      simp only [scanDuplicates, if_pos hmem, List.length_cons, List.map_cons,
        List.toFinset_cons, Finset.insert_sdiff_of_mem _ hfin, ih]
      have := hle seen.toFinset
      omega
    · have hfin : a.span_id ∉ seen.toFinset := fun h => hmem (List.mem_toFinset.mp h)
      have key : ((insert a.span_id (rest.map ExecutionSpan.span_id).toFinset) \
            seen.toFinset).card =
          ((rest.map ExecutionSpan.span_id).toFinset \
            (insert a.span_id seen.toFinset)).card + 1 := by
        rw [Finset.insert_sdiff_of_not_mem _ hfin, Finset.sdiff_insert]
        have h2 : insert a.span_id
              ((rest.map ExecutionSpan.span_id).toFinset \ seen.toFinset) =
            insert a.span_id
              (((rest.map ExecutionSpan.span_id).toFinset \ seen.toFinset).erase a.span_id) := by
          ext y
          by_cases hy : y = a.span_id <;> simp [hy]
        rw [h2, Finset.card_insert_of_not_mem (Finset.not_mem_erase _ _)]
      simp only [scanDuplicates, if_neg hmem, List.length_cons, List.map_cons,
        List.toFinset_cons, ih, List.toFinset_cons, key]
      have := hle (insert a.span_id seen.toFinset)
      omega

/-- The full diagnostics list produced by `validate`, as the concatenation
of the four checks' contributions. -/
theorem validate_errors_eq (r : ExecutionResult) :
    r.validate.validation_errors =
      (if r.repo_span.parent_span_id = "" then
        ["Repo span is missing parent_span_id from caller"] else []) ++
      (if r.agent_spans.isEmpty then
        ["No agent spans emitted -- execution has no evidence of agent work"] else []) ++
      ((r.agent_spans.filter (fun s => s.parent_span_id ≠ r.repo_span.span_id)).map
        (fun s => wrongParentError s r.repo_span.span_id)) ++
      scanDuplicates r.agent_spans [] := by
  simp only [ExecutionResult.validate]
  split_ifs <;> simp

/-- Claim C1: `validate()` runs all checks and accumulates diagnostics. It
returns `valid = true` exactly when the repo span's `parent_span_id` is
non-empty, the agent-span list is non-empty, every agent span's parent is
the repo span's id, and no two agent spans share a span id; and the number
of diagnostics is exactly one per violated emptiness check, one per agent
span with a wrong parent, and one per duplicate-id occurrence beyond the
first (being a total function, it never throws). -/
theorem validate_spec (r : ExecutionResult) :
    (r.validate.valid = true ↔
       (r.repo_span.parent_span_id ≠ "" ∧ r.agent_spans ≠ [] ∧
        (∀ s ∈ r.agent_spans, s.parent_span_id = r.repo_span.span_id) ∧
        (r.agent_spans.map ExecutionSpan.span_id).Nodup)) ∧
    r.validate.validation_errors.length =
      ((if r.repo_span.parent_span_id = "" then 1 else 0) +
       (if r.agent_spans.isEmpty then 1 else 0) +
       (r.agent_spans.countP (fun s => s.parent_span_id ≠ r.repo_span.span_id)) +
       (r.agent_spans.length - (r.agent_spans.map ExecutionSpan.span_id).dedup.length)) := by
  have hvalid : r.validate.valid = r.validate.validation_errors.isEmpty := rfl
  constructor
  · rw [hvalid, validate_errors_eq r]
    simp only [List.isEmpty_iff, List.append_eq_nil, List.map_eq_nil_iff,
      List.filter_eq_nil_iff, scanDuplicates_eq_nil]
    constructor
    · rintro ⟨⟨⟨h1, h2⟩, h3⟩, h4, -⟩
      refine ⟨?_, ?_, ?_, h4⟩
      · intro hc
        simp [hc] at h1
      · intro hc
        simp [hc] at h2
      · intro s hs
        have := h3 s hs
        simpa using this
    · rintro ⟨h1, h2, h3, h4⟩
      refine ⟨⟨⟨?_, ?_⟩, ?_⟩, h4, by simp⟩
      · simp [h1]
      · simp [List.isEmpty_iff, h2]
      · intro s hs
        simp [h3 s hs]
  · rw [validate_errors_eq r]
    have hd : ((r.agent_spans.map ExecutionSpan.span_id).toFinset \
          (([] : List String)).toFinset).card =
        (r.agent_spans.map ExecutionSpan.span_id).dedup.length := by
      simp [List.card_toFinset]
    have hif : ∀ (c : Prop) (inst : Decidable c) (m : String),
        (if c then [m] else ([] : List String)).length = if c then 1 else 0 := by
      intro c inst m
      split_ifs <;> rfl
    simp only [List.length_append, List.length_map, scanDuplicates_length, hd,
      List.countP_eq_length_filter, hif]

/-- Witness for `validate_spec`: on the concrete well-formed tree (repo span
`R1` with one agent span parented on it), `validate` yields
`valid = true`. -/
theorem validate_spec_witness :
    (ExecutionResult.new sampleRepoSpan [sampleAgentSpan]).validate.valid = true :=
  ((validate_spec (ExecutionResult.new sampleRepoSpan [sampleAgentSpan])).1).mpr
    ⟨by decide, by simp [ExecutionResult.new], by decide, by decide⟩

/-- `ExecutionSpanKind` round-trips through its snake_case encoding. -/
theorem decodeKind_encodeKind (k : ExecutionSpanKind) : decodeKind (encodeKind k) = some k := by
  cases k <;> rfl

/-- `ExecutionSpanStatus` round-trips through its UPPERCASE encoding. -/
theorem decodeStatus_encodeStatus (st : ExecutionSpanStatus) :
    decodeStatus (encodeStatus st) = some st := by
  cases st <;> rfl

/-- `Artifact` round-trips through its wire encoding. -/
theorem decodeArtifact_encodeArtifact (a : Artifact) :
    decodeArtifact (encodeArtifact a) = some a := by
  cases a with
  | mk artifact_id agent_span_id name content_type content_hash size_bytes content
      created_at metadata =>
    cases content <;> rfl

/-- `ExecutionEvent` round-trips through its wire encoding. -/
theorem decodeEvent_encodeEvent (e : ExecutionEvent) : decodeEvent (encodeEvent e) = some e := rfl

/-- Element-wise decoding inverts element-wise encoding on lists. -/
theorem decodeElems_map_encode {α : Type} (dec : Json → Option α) (enc : α → Json)
    (l : List α) (h : ∀ x ∈ l, dec (enc x) = some x) :
    decodeElems dec (l.map enc) = some l := by
  induction l with
  | nil => rfl
  | cons a rest ih =>
    rw [List.map_cons, decodeElems, h a (List.mem_cons_self a rest),
      ih (fun x hx => h x (List.mem_cons_of_mem a hx))]

/-- `ExecutionSpan` round-trips through its wire encoding. -/
theorem decodeSpan_encodeSpan (s : ExecutionSpan) : decodeSpan (encodeSpan s) = some s := by
  obtain ⟨sid, eid, pid, kind, rn, an, st, t0, te, dur, arts, evs, attrs, em⟩ := s
  have hart : decodeElems decodeArtifact (arts.map encodeArtifact) = some arts :=
    decodeElems_map_encode _ _ _ (fun x _ => decodeArtifact_encodeArtifact x)
  have hev : decodeElems decodeEvent (evs.map encodeEvent) = some evs :=
    decodeElems_map_encode _ _ _ (fun x _ => decodeEvent_encodeEvent x)
  cases an <;> cases te <;> cases dur <;> cases em <;>
    simp [decodeSpan, encodeSpan, optJsonField, Json.getField, lookupField,
      decodeStrField, decodeNumField, decodeOptStrField, decodeOptNumField,
      decodeOptNatField, decodeMapField, decodeListField,
      decodeKind_encodeKind, decodeStatus_encodeStatus, hart, hev]

/-- `ExecutionResult` round-trips through its wire encoding. -/
theorem decodeResult_encodeResult (r : ExecutionResult) :
    decodeResult (encodeResult r) = some r := by
  obtain ⟨eid, repo, agents, valid, verrs, tarts, tdur⟩ := r
  have hrepo : decodeSpan (encodeSpan repo) = some repo := decodeSpan_encodeSpan repo
  have hagents : decodeElems decodeSpan (agents.map encodeSpan) = some agents :=
    decodeElems_map_encode _ _ _ (fun x _ => decodeSpan_encodeSpan x)
  have herrs : decodeElems decodeStr (verrs.map Json.str) = some verrs :=
    decodeElems_map_encode _ _ _ (fun x _ => rfl)
  cases tdur <;>
    simp [decodeResult, encodeResult, optJsonField, Json.getField, lookupField,
      decodeStrField, decodeNatField, decodeOptNatField, decodeListField,
      hrepo, hagents, herrs]

/-- A `None`-valued `agent_name` is entirely absent from the encoded span. -/
theorem encodeSpan_agent_name_absent (s : ExecutionSpan) (h : s.agent_name = none) :
    (encodeSpan s).getField "agent_name" = none := by
  obtain ⟨sid, eid, pid, kind, rn, an, st, t0, te, dur, arts, evs, attrs, em⟩ := s
  simp only at h
  subst h
  cases te <;> cases dur <;> cases em <;>
    simp [encodeSpan, optJsonField, Json.getField, lookupField]

/-- A `None`-valued `end_time` is entirely absent from the encoded span. -/
theorem encodeSpan_end_time_absent (s : ExecutionSpan) (h : s.end_time = none) :
    (encodeSpan s).getField "end_time" = none := by
  obtain ⟨sid, eid, pid, kind, rn, an, st, t0, te, dur, arts, evs, attrs, em⟩ := s
  simp only at h
  subst h
  cases an <;> cases dur <;> cases em <;>
    simp [encodeSpan, optJsonField, Json.getField, lookupField]

/-- A `None`-valued `duration_ms` is entirely absent from the encoded span. -/
theorem encodeSpan_duration_ms_absent (s : ExecutionSpan) (h : s.duration_ms = none) :
    (encodeSpan s).getField "duration_ms" = none := by
  obtain ⟨sid, eid, pid, kind, rn, an, st, t0, te, dur, arts, evs, attrs, em⟩ := s
  simp only at h
  subst h
  cases an <;> cases te <;> cases em <;>
    simp [encodeSpan, optJsonField, Json.getField, lookupField]

/-- A `None`-valued `error_message` is entirely absent from the encoded
span. -/
theorem encodeSpan_error_message_absent (s : ExecutionSpan) (h : s.error_message = none) :
    (encodeSpan s).getField "error_message" = none := by
  obtain ⟨sid, eid, pid, kind, rn, an, st, t0, te, dur, arts, evs, attrs, em⟩ := s
  simp only at h
  subst h
  cases an <;> cases te <;> cases dur <;>
    simp [encodeSpan, optJsonField, Json.getField, lookupField]

/-- A `None`-valued `total_duration_ms` is entirely absent from the encoded
result. -/
theorem encodeResult_total_duration_ms_absent (r : ExecutionResult)
    (h : r.total_duration_ms = none) :
    (encodeResult r).getField "total_duration_ms" = none := by
  obtain ⟨eid, repo, agents, valid, verrs, tarts, tdur⟩ := r
  simp only at h
  subst h
  simp [encodeResult, optJsonField, Json.getField, lookupField]

/-- Claim C9: serializing an `ExecutionSpan` or `ExecutionResult` to the
JSON wire format and deserializing reproduces an equal value, and the
optional fields (`agent_name`, `end_time`, `duration_ms`, `error_message`,
`total_duration_ms`) are entirely absent from the serialized object — not
present with a null — whenever they were `None`. -/
theorem wire_format_roundtrip :
    (∀ s : ExecutionSpan,
       decodeSpan (encodeSpan s) = some s ∧
       (s.agent_name = none → (encodeSpan s).getField "agent_name" = none) ∧
       (s.end_time = none → (encodeSpan s).getField "end_time" = none) ∧
       (s.duration_ms = none → (encodeSpan s).getField "duration_ms" = none) ∧
       (s.error_message = none → (encodeSpan s).getField "error_message" = none)) ∧
    (∀ r : ExecutionResult,
       decodeResult (encodeResult r) = some r ∧
       (r.total_duration_ms = none → (encodeResult r).getField "total_duration_ms" = none)) :=
  ⟨fun s =>
    ⟨decodeSpan_encodeSpan s, encodeSpan_agent_name_absent s,
     encodeSpan_end_time_absent s, encodeSpan_duration_ms_absent s,
     encodeSpan_error_message_absent s⟩,
   fun r =>
    ⟨decodeResult_encodeResult r, encodeResult_total_duration_ms_absent r⟩⟩

/-- Witness for `wire_format_roundtrip`: the concrete repo span (all four
optional fields `None`) round-trips, and its serialized object carries no
`agent_name` field. -/
theorem wire_format_roundtrip_witness :
    decodeSpan (encodeSpan sampleRepoSpan) = some sampleRepoSpan ∧
    (encodeSpan sampleRepoSpan).getField "agent_name" = none ∧
    (encodeSpan sampleRepoSpan).getField "end_time" = none ∧
    (encodeSpan sampleRepoSpan).getField "duration_ms" = none ∧
    (encodeSpan sampleRepoSpan).getField "error_message" = none :=
  ⟨(wire_format_roundtrip.1 sampleRepoSpan).1,
   (wire_format_roundtrip.1 sampleRepoSpan).2.1 rfl,
   (wire_format_roundtrip.1 sampleRepoSpan).2.2.1 rfl,
   (wire_format_roundtrip.1 sampleRepoSpan).2.2.2.1 rfl,
   (wire_format_roundtrip.1 sampleRepoSpan).2.2.2.2 rfl⟩

end Observatory
